import Mathlib

/-!
Shallow embedding of the chat request/response orchestration layer of
`src/script.js`: the conversation history, the worker-proxy call with its
timeout and response normalization, the direct-API fallback, and the form
submit handler. JavaScript values appearing in response bodies are modelled
by `Json`; JavaScript `undefined` (an absent property) is modelled by
`Option Json` with `none` for `undefined`.
-/

set_option maxHeartbeats 1000000
set_option maxRecDepth 8192

/-- A JSON value, as produced by `res.json()`. Numbers are modelled as
integers (no claim depends on fractional values). -/
inductive Json where
  | null
  | bool (b : Bool)
  | num (n : Int)
  | str (s : String)
  | arr (elems : List Json)
  | obj (fields : List (String × Json))

/-- Whether a value is the JSON `null`. -/
def Json.isNull : Json → Bool
  | .null => true
  | _ => false

/-- JavaScript truthiness of a JSON value: `null`, `false`, `0` and `""` are
falsy; every array and object is truthy. -/
def Json.truthy : Json → Bool
  | .null => false
  | .bool b => b
  | .num n => n != 0
  | .str s => s != ""
  | .arr _ => true
  | .obj _ => true

/-- Truthiness of a possibly-`undefined` value (`undefined` is falsy). -/
def truthyO : Option Json → Bool
  | none => false
  | some j => j.truthy

/-- JavaScript `a && b` on values: the first falsy operand, else the last. -/
def jsAnd (a b : Option Json) : Option Json :=
  if truthyO a then b else a

/-- JavaScript `a || b` on values: the first truthy operand, else the last. -/
def jsOr (a b : Option Json) : Option Json :=
  if truthyO a then a else b

/-- Property lookup on an object field list (first match wins). -/
def lookupField : List (String × Json) → String → Option Json
  | [], _ => none
  | (k, v) :: rest, key => if k = key then some v else lookupField rest key

/-- JavaScript property access `j.key`: `none` (`undefined`) when `j` is not
an object or the field is absent. -/
def Json.get : Json → String → Option Json
  | .obj fs, key => lookupField fs key
  | _, _ => none

/-- JavaScript index access `j[i]`: array element, object property named by
the decimal index, or a one-character string for string values. -/
def Json.idx : Json → Nat → Option Json
  | .arr xs, i => xs.get? i
  | .obj fs, i => lookupField fs (toString i)
  | .str s, i => (s.data.get? i).map fun c => Json.str c.toString
  | _, _ => none

/-- Property access on a possibly-`undefined` value (used only under `&&`
guards, mirroring the source's short-circuit protection). -/
def optGet (o : Option Json) (key : String) : Option Json :=
  o.bind fun j => j.get key

/-- Index access on a possibly-`undefined` value. -/
def optIdx (o : Option Json) (i : Nat) : Option Json :=
  o.bind fun j => j.idx i

mutual
/-- `JSON.stringify` on the modelled values. -/
def Json.stringify : Json → String
  | .null => "null"
  | .bool b => cond b "true" "false"
  | .num n => toString n
  | .str s => "\"" ++ s ++ "\""
  | .arr xs => "[" ++ Json.stringifyElems xs ++ "]"
  | .obj fs => "\x7b" ++ Json.stringifyFields fs ++ "\x7d"
/-- Comma-separated serialization of array elements. -/
def Json.stringifyElems : List Json → String
  | [] => ""
  | [x] => Json.stringify x
  | x :: xs => Json.stringify x ++ "," ++ Json.stringifyElems xs
/-- Comma-separated serialization of object members. -/
def Json.stringifyFields : List (String × Json) → String
  | [] => ""
  | [(k, v)] => "\"" ++ k ++ "\":" ++ Json.stringify v
  | (k, v) :: fs => "\"" ++ k ++ "\":" ++ Json.stringify v ++ "," ++ Json.stringifyFields fs
end

mutual
/-- JavaScript `String(v)`: the string an `Error` constructor or template
literal produces from a value (`[object Object]` for plain objects, comma
joined elements for arrays). -/
def jsDisplay : Json → String
  | .null => "null"
  | .bool b => cond b "true" "false"
  | .num n => toString n
  | .str s => s
  | .arr xs => jsDisplayElems xs
  | .obj _ => "[object Object]"
/-- `Array.prototype.toString`: elements joined with commas, `null` as empty. -/
def jsDisplayElems : List Json → String
  | [] => ""
  | [x] => cond x.isNull "" (jsDisplay x)
  | x :: xs => cond x.isNull "" (jsDisplay x) ++ "," ++ jsDisplayElems xs
end

/-- `String.prototype.trim`: strip whitespace from both ends (structural,
over the character list). -/
def jsTrimStr (s : String) : String :=
  ⟨((s.data.dropWhile Char.isWhitespace).reverse.dropWhile Char.isWhitespace).reverse⟩

/-- A chat message as pushed onto the `messages` array: exactly a `role`
and a `content` field (`content` is a `Json` value because the worker
normalization can return non-string values that are pushed as-is). -/
structure Message where
  role : String
  content : Json

/-- The worker proxy URL constant `workerUrl`. -/
def workerUrl : String := "https://loreal-worker.gaz9.workers.dev/"

/-- The fixed system persona message. -/
def systemMessage : Message :=
  ⟨"system",
   .str "You are the L\x27Oréal Smart Product Advisor. Provide helpful, accurate, and safety-conscious advice about L\x27Oréal products, skincare, makeup, haircare, routines, and related beauty topics. If a user asks something unrelated to L\x27Oréal or beauty (for example medical diagnoses, politics, or illegal activities), politely refuse and steer the conversation back to beauty/product guidance. Keep answers friendly, concise, and respectful."⟩

/-- The canned greeting shown and pushed at startup. -/
def initialGreeting : String := "👋 Hello! How can I help you today?"

/-- The conversation history after initialization: the system message, then
the assistant greeting (`messages = [systemMessage]` followed by
`messages.push(\x7brole: "assistant", content: initialGreeting\x7d)`). -/
def initialMessages : List Message :=
  [systemMessage, ⟨"assistant", .str initialGreeting⟩]

/-- `conversation.map((m) => (\x7brole: m.role, content: m.content\x7d))`:
the wire payload copied from the history. -/
def payloadMessages (conversation : List Message) : List Message :=
  conversation.map fun m => ⟨m.role, m.content⟩

/-- A delivered HTTP response: status, status text, whether `res.type` is
the blocked cross-origin kind, and the result of `res.json()` (`Except.error`
carries the parse error's message). -/
structure NetResponse where
  status : Nat
  statusText : String
  corsBlocked : Bool
  body : Except String Json

/-- What the server (or network) does with one request: reject after `time`
milliseconds with an error message, or deliver a response after `time`
milliseconds. -/
inductive FetchBehavior where
  | fails (msg : String) (time : Nat)
  | responds (res : NetResponse) (time : Nat)

/-- `res.ok`: status in the 200–299 range. -/
def NetResponse.ok (r : NetResponse) : Bool :=
  200 ≤ r.status && r.status < 300

/-- The message of the abort error produced when the timeout fires (the
exact text is supplied by the runtime; it is never inspected by the code). -/
def abortErrorMessage : String := "The user aborted a request."

/-- `timeoutFetch(url, opts, timeout)`: starts an abort timer for `budget`
milliseconds; if the underlying fetch settles strictly earlier it wins,
otherwise the call is aborted and rejects with the abort error. -/
def timeoutFetch (budget : Nat) (b : FetchBehavior) : Except String NetResponse :=
  match b with
  | .fails msg t => if budget ≤ t then .error abortErrorMessage else .error msg
  | .responds res t => if budget ≤ t then .error abortErrorMessage else .ok res

/-- When a fetch settles (delivery or rejection), in milliseconds. -/
def FetchBehavior.time : FetchBehavior → Nat
  | .fails _ t => t
  | .responds _ t => t

/-- The environment a single `fetchChatCompletion` call runs in: how the
proxy fetch behaves, whether `OPENAI_API_KEY` is already defined and truthy,
whether loading the local secrets scripts yields a truthy key, and how the
direct OpenAI fetch behaves. -/
structure Env where
  proxyNet : FetchBehavior
  keyDefined : Bool
  secretsProvideKey : Bool
  directNet : FetchBehavior

/-- `ensureApiKeyLoaded()`: true when the key is already defined, or one of
the probed local scripts defines it. -/
def ensureApiKeyLoaded (e : Env) : Bool :=
  e.keyDefined || e.secretsProvideKey

/-- `data.choices[0].message` as a possibly-`undefined` value. -/
def choicesMessage (data : Json) : Option Json :=
  optGet (optIdx (data.get "choices") 0) "message"

/-- The guard `data.choices && data.choices[0] && data.choices[0].message`. -/
def choicesGuard (data : Json) : Bool :=
  truthyO (jsAnd (jsAnd (data.get "choices") (optIdx (data.get "choices") 0))
    (choicesMessage data))

/-- `v.trim()` on a possibly-`undefined` value: trims a string, throws a
`TypeError` otherwise (in particular when `v` is `undefined`). -/
def jsTrimVal : Option Json → Except String String
  | some (.str s) => .ok (jsTrimStr s)
  | some _ => .error "data.choices[0].message.content.trim is not a function"
  | none => .error "Cannot read properties of undefined (reading \x27trim\x27)"

/-- The message thrown for a truthy `data.error` on a successful proxy
status: `(e && e.message) || (typeof e === "string" && e) || JSON.stringify(e)`,
converted to the `Error` message string. -/
def errorFieldMessage (e : Json) : String :=
  let viaMessage : Option Json := e.get "message"
  let viaString : Option Json :=
    match e with
    | .str _ => some e
    | _ => some (.bool false)
  jsDisplay ((jsOr (jsOr viaMessage viaString) (some (.str e.stringify))).getD .null)

/-- Normalization of a success-status proxy body (the chain of `return`s and
`throw`s after `if (!res.ok)` in `fetchChatCompletion`): `data.assistant`
if truthy, else `data.choices[0].message.content.trim()` when the chain up
to `message` is truthy (which throws when `content` is not a string), else
`data.reply` if truthy, else a thrown error from a truthy `data.error`,
else `JSON.stringify(data)`. -/
def normalizeWorkerBody (data : Json) : Except String Json :=
  if truthyO (data.get "assistant") then
    .ok ((data.get "assistant").getD .null)
  else if choicesGuard data then
    (jsTrimVal (optGet (choicesMessage data) "content")).map Json.str
  else if truthyO (data.get "reply") then
    .ok ((data.get "reply").getD .null)
  else
    match data.get "error" with
    | some e =>
      if e.truthy then .error (errorFieldMessage e)
      else .ok (.str data.stringify)
    | none => .ok (.str data.stringify)

/-- `typeof v === "string"` together with the string value: `some s` exactly
when the value is a string. -/
def asString : Option Json → Option String
  | some (.str s) => some s
  | _ => none

/-- The failure message for a non-success proxy status: starts as
`"<status> <statusText>"`; when the parsed body is truthy it is replaced by
a string `data.error`, else a truthy `data.error.message`, else a truthy
`data.message`, else `JSON.stringify(data)`; finally converted to the
`Error` message string. -/
def workerFailMessage (res : NetResponse) (data : Json) : String :=
  if data.truthy then
    match asString (data.get "error") with
    | some s => s
    | none =>
      if truthyO (jsAnd (data.get "error") (optGet (data.get "error") "message")) then
        jsDisplay ((optGet (data.get "error") "message").getD .null)
      else if truthyO (data.get "message") then
        jsDisplay ((data.get "message").getD .null)
      else data.stringify
  else
    toString res.status ++ " " ++ res.statusText

/-- The opaque-response error message thrown on the proxy path. -/
def opaqueResponseMessage : String :=
  "Worker returned an opaque response (likely a CORS issue). Ensure the worker sets Access-Control-Allow-Origin to allow your page\x27s origin."

/-- Everything inside the proxy `try` block: the 8-second `timeoutFetch`,
the blocked-response check, `res.json()`, the status check, and body
normalization. `Except.error` is a thrown error's message. -/
def proxyAttempt (e : Env) : Except String Json :=
  match timeoutFetch 8000 e.proxyNet with
  | .error m => .error m
  | .ok res =>
    if res.corsBlocked then .error opaqueResponseMessage
    else
      match res.body with
      | .error parseMsg => .error ("Worker returned invalid JSON: " ++ parseMsg)
      | .ok data =>
        if res.ok then normalizeWorkerBody data
        else .error (workerFailMessage res data)

/-- The value of the chain
`data && data.choices && data.choices[0] && data.choices[0].message && data.choices[0].message.content`
on the direct path. -/
def directContentChain (data : Json) : Option Json :=
  jsAnd (jsAnd (jsAnd (jsAnd (some data) (data.get "choices"))
    (optIdx (data.get "choices") 0)) (choicesMessage data))
    (optGet (choicesMessage data) "content")

/-- Direct-path success normalization: `content.trim()` when the whole chain
down to `content` is truthy (throwing when the truthy `content` is not a
string), else the empty string. -/
def directAssistantText (data : Json) : Except String String :=
  if truthyO (directContentChain data) then jsTrimVal (directContentChain data)
  else .ok ""

/-- Direct-path non-success message value:
`(data && data.error && (data.error.message || data.error)) || (data && data.message) || "HTTP <status> - <statusText>"`. -/
def directFailValue (res : NetResponse) (data : Json) : Json :=
  (jsOr
    (jsOr
      (jsAnd (jsAnd (some data) (data.get "error"))
        (jsOr (optGet (data.get "error") "message") (data.get "error")))
      (jsAnd (some data) (data.get "message")))
    (some (.str ("HTTP " ++ toString res.status ++ " - " ++ res.statusText)))).getD .null

/-- The direct OpenAI call: the 12-second `timeoutFetch`, `res.json()`
(outside any `try`, so a parse failure propagates), the status check, and
`assistantText` extraction. -/
def directAttempt (e : Env) : Except String Json :=
  match timeoutFetch 12000 e.directNet with
  | .error m => .error m
  | .ok res =>
    match res.body with
    | .error parseMsg => .error parseMsg
    | .ok data =>
      if res.ok then (directAssistantText data).map Json.str
      else .error (jsDisplay (directFailValue res data))

/-- The fixed error thrown when the proxy failed and no fallback credential
could be found. -/
def proxyUnreachableMessage : String :=
  "Unable to contact the proxy service (network/CORS/timeout). To fix: 1) Ensure your Cloudflare Worker URL is correct and the worker sets Access-Control-Allow-Origin (e.g., \x27*\x27). 2) Open the browser Network tab to inspect the worker request and CORS preflight. 3) For local development you can add a secrets.js file defining OPENAI_API_KEY or fix the worker. (See console for the worker error.)"

/-- The error thrown when no proxy is configured and no key can be loaded. -/
def keyMissingMessage : String :=
  "OPENAI_API_KEY is not set. Add a secrets.js file with: const OPENAI_API_KEY = \x27sk-...\x27; (development only)."

/-- The result of one `fetchChatCompletion` call: the returned assistant
value or the thrown error's message, the wire payload built from the
conversation, and whether the direct fallback call was issued. -/
structure FetchResult where
  outcome : Except String Json
  sentPayload : List Message
  usedFallback : Bool

/-- `fetchChatCompletion(conversation)`: builds `payloadMessages`, tries the
worker proxy when `workerUrl` is configured; on any thrown proxy error it
loads the key and either falls through to the direct call or throws the
proxy-unreachable error; with no proxy configured it requires a loadable
key and issues the direct call. -/
def fetchChatCompletion (e : Env) (conversation : List Message) : FetchResult :=
  let payload := payloadMessages conversation
  if workerUrl ≠ "" ∧ jsTrimStr workerUrl ≠ "" then
    match proxyAttempt e with
    | .ok v => ⟨.ok v, payload, false⟩
    | .error _ =>
      if ensureApiKeyLoaded e then ⟨directAttempt e, payload, true⟩
      else ⟨.error proxyUnreachableMessage, payload, false⟩
  else
    if e.keyDefined then ⟨directAttempt e, payload, true⟩
    else if ensureApiKeyLoaded e then ⟨directAttempt e, payload, true⟩
    else ⟨.error keyMissingMessage, payload, false⟩

/-- What one submit of the form produces for the caller: nothing (empty
input), a rendered assistant value, or a rendered failure message. -/
inductive Outcome where
  | ignored
  | success (text : Json)
  | failure (reason : String)

/-- The message shown when the call succeeded with a falsy assistant text. -/
def noResponseMessage : String :=
  "Sorry, I couldn\x27t generate a response. Please try again."

/-- The prefix of the message shown for a thrown error. -/
def errorDisplayPrefix : String := "There was an error contacting the API: "

/-- The observable result of one submit: the history afterwards, the
outcome, and the wire payload sent (`none` when no request was issued). -/
structure SendResult where
  history : List Message
  outcome : Outcome
  sentPayload : Option (List Message)

/-- The form submit handler: trims the input, returns untouched on empty
text, pushes the user message, calls `fetchChatCompletion` on the grown
history, and on a truthy result pushes the assistant message; a falsy
result shows the no-response message, a thrown error shows its message
(`err.message || String(err)`) behind the error prefix. -/
def send (e : Env) (history : List Message) (input : String) : SendResult :=
  let text := jsTrimStr input
  if text = "" then ⟨history, .ignored, none⟩
  else
    let grown := history ++ [⟨"user", .str text⟩]
    let f := fetchChatCompletion e grown
    match f.outcome with
    | .ok v =>
      if v.truthy then ⟨grown ++ [⟨"assistant", v⟩], .success v, some f.sentPayload⟩
      else ⟨grown, .failure noResponseMessage, some f.sentPayload⟩
    | .error m =>
      ⟨grown, .failure (errorDisplayPrefix ++ (if m = "" then "Error" else m)),
        some f.sentPayload⟩


/-- A fetch behavior for an unreachable network: immediate rejection. -/
def offlineFetch : FetchBehavior := .fails "Failed to fetch" 0

/-- An environment with no reachable network and no credential anywhere. -/
def offlineEnv : Env := ⟨offlineFetch, false, false, offlineFetch⟩

/-- The spec's sample proxy body `\x7b"choices":[\x7b"message":\x7b"content":" hi  "\x7d\x7d]\x7d`. -/
def sampleChoicesBody : Json :=
  .obj [("choices", .arr [.obj [("message", .obj [("content", .str " hi  ")])]])]

/-- An environment whose proxy answers 200 with `sampleChoicesBody`. -/
def sampleProxyEnv : Env :=
  ⟨.responds ⟨200, "OK", false, .ok sampleChoicesBody⟩ 100, false, false, offlineFetch⟩

/-- A proxy body whose trimmed content is all whitespace. -/
def blankContentBody : Json :=
  .obj [("choices", .arr [.obj [("message", .obj [("content", .str "   ")])]])]

/-- An environment whose proxy answers 200 with `blankContentBody`. -/
def blankContentEnv : Env :=
  ⟨.responds ⟨200, "OK", false, .ok blankContentBody⟩ 100, false, false, offlineFetch⟩

/-- A body with a `message` lacking any `content` field. -/
def noContentBody : Json :=
  .obj [("choices", .arr [.obj [("message", .obj [("role", .str "assistant")])]])]

/-- A non-empty body with no `error`, `message`, `assistant`, `choices` or
`reply` field. -/
def plainBody : Json := .obj [("foo", .num 1)]

/-- A 500 response carrying `plainBody`. -/
def serverErrorResponse : NetResponse :=
  ⟨500, "Internal Server Error", false, .ok plainBody⟩

/-- An environment whose direct call answers with `serverErrorResponse` and
whose proxy is offline, a key being available locally. -/
def directErrorEnv : Env :=
  ⟨offlineFetch, true, false, .responds serverErrorResponse 100⟩

/-- An environment whose proxy fetch settles only after nine seconds. -/
def slowProxyEnv : Env :=
  ⟨.responds ⟨200, "OK", false, .ok sampleChoicesBody⟩ 9000, false, false, offlineFetch⟩

/-- A direct-path success body whose content is `"ok "`. -/
def directOkBody : Json :=
  .obj [("choices", .arr [.obj [("message", .obj [("content", .str "ok ")])]])]

theorem workerUrl_configured : workerUrl ≠ "" ∧ jsTrimStr workerUrl ≠ "" := by
  decide

theorem payloadMessages_id (h : List Message) : payloadMessages h = h := by
  simp [payloadMessages]

theorem truthyO_some (j : Json) : truthyO (some j) = j.truthy := rfl

theorem truthyO_jsOr (a b : Option Json) :
    truthyO (jsOr a b) = (truthyO a || truthyO b) := by
  by_cases h : truthyO a <;> simp [jsOr, h]

theorem jsOr_neg {a : Option Json} (b : Option Json) (h : truthyO a = false) :
    jsOr a b = b := by
  simp [jsOr, h]

theorem fetch_sentPayload (e : Env) (conversation : List Message) :
    (fetchChatCompletion e conversation).sentPayload = conversation := by
  rw [fetchChatCompletion]
  rw [if_pos workerUrl_configured]
  cases proxyAttempt e with
  | ok v => simpa using payloadMessages_id conversation
  | error m =>
    by_cases hk : ensureApiKeyLoaded e
    · simp [hk, payloadMessages_id]
    · simp [hk, payloadMessages_id]

theorem send_nonempty (e : Env) (h : List Message) (input : String)
    (hne : jsTrimStr input ≠ "") :
    send e h input =
      match (fetchChatCompletion e (h ++ [⟨"user", .str (jsTrimStr input)⟩])).outcome with
      | .ok v =>
        if v.truthy then
          ⟨h ++ [⟨"user", .str (jsTrimStr input)⟩, ⟨"assistant", v⟩], .success v,
            some (h ++ [⟨"user", .str (jsTrimStr input)⟩])⟩
        else
          ⟨h ++ [⟨"user", .str (jsTrimStr input)⟩], .failure noResponseMessage,
            some (h ++ [⟨"user", .str (jsTrimStr input)⟩])⟩
      | .error m =>
        ⟨h ++ [⟨"user", .str (jsTrimStr input)⟩],
          .failure (errorDisplayPrefix ++ (if m = "" then "Error" else m)),
          some (h ++ [⟨"user", .str (jsTrimStr input)⟩])⟩ := by
  cases hf : (fetchChatCompletion e (h ++ [⟨"user", .str (jsTrimStr input)⟩])).outcome with
  | ok v =>
    by_cases hv : v.truthy <;>
      simp [send, hne, hf, hv, fetch_sentPayload]
  | error m =>
    simp [send, hne, hf, fetch_sentPayload]

/-- C1: empty or whitespace-only input makes `send` return immediately: the
history is unchanged, no payload is sent, neither the proxy nor the fallback
path is attempted, and the result does not depend on the network environment
at all. -/
theorem c1_empty_input_no_mutation (e : Env) (h : List Message) (input : String)
    (he : jsTrimStr input = "") :
    send e h input = ⟨h, .ignored, none⟩ ∧
    ∀ e2 : Env, send e2 h input = send e h input := by
  constructor
  · simp [send, he]
  · intro e2
    simp [send, he]

/-- Witness for C1 at the whitespace-only input `"   "`. -/
theorem c1_empty_input_no_mutation_witness :
    send offlineEnv initialMessages "   " = ⟨initialMessages, .ignored, none⟩ :=
  (c1_empty_input_no_mutation offlineEnv initialMessages "   " (by decide)).1

/-- C2: for non-empty (after trimming) input, `send` appends exactly one
user message before the network attempt — the payload handed to the network
is the history grown by exactly that user message — the final history is
that grown history possibly extended by one assistant message, and on any
failure the user message is still there (the grown history is returned
unchanged, with no rollback). -/
theorem c2_user_turn_appended (e : Env) (h : List Message) (input : String)
    (hne : jsTrimStr input ≠ "") :
    (send e h input).sentPayload
      = some (payloadMessages (h ++ [⟨"user", .str (jsTrimStr input)⟩])) ∧
    ((send e h input).history = h ++ [⟨"user", .str (jsTrimStr input)⟩] ∨
      ∃ v, (send e h input).history
        = h ++ [⟨"user", .str (jsTrimStr input)⟩, ⟨"assistant", v⟩]) ∧
    ∀ r, (send e h input).outcome = .failure r →
      (send e h input).history = h ++ [⟨"user", .str (jsTrimStr input)⟩] := by
  rw [send_nonempty e h input hne, payloadMessages_id]
  cases hf : (fetchChatCompletion e (h ++ [⟨"user", .str (jsTrimStr input)⟩])).outcome with
  | ok v =>
    by_cases hv : v.truthy
    · exact ⟨by simp [hv], .inr ⟨v, by simp [hv]⟩, fun r hr => by simp [hv] at hr⟩
    · exact ⟨by simp [hv], .inl (by simp [hv]), fun r _ => by simp [hv]⟩
  | error m =>
    exact ⟨by simp, .inl (by simp), fun r _ => by simp⟩

/-- Witness for C2: with the whole network down and no credential, sending
`"hello"` still leaves the user turn in the history. -/
theorem c2_user_turn_appended_witness :
    (send offlineEnv initialMessages "hello").history
      = initialMessages ++ [⟨"user", .str (jsTrimStr "hello")⟩] :=
  (c2_user_turn_appended offlineEnv initialMessages "hello" (by decide)).2.2
    (errorDisplayPrefix ++ proxyUnreachableMessage) rfl

/-- C3: a success outcome appends exactly one assistant message carrying the
returned value, any failure outcome appends none, and a nominally successful
remote call whose normalized assistant string is empty produces the generic
no-response failure with no assistant turn recorded. -/
theorem c3_assistant_appended_iff_success (e : Env) (h : List Message) (input : String)
    (hne : jsTrimStr input ≠ "") :
    (∀ v, (send e h input).outcome = .success v →
      (send e h input).history
        = h ++ [⟨"user", .str (jsTrimStr input)⟩, ⟨"assistant", v⟩]) ∧
    (∀ r, (send e h input).outcome = .failure r →
      (send e h input).history = h ++ [⟨"user", .str (jsTrimStr input)⟩]) ∧
    ((fetchChatCompletion e (h ++ [⟨"user", .str (jsTrimStr input)⟩])).outcome
        = .ok (.str "") →
      (send e h input).outcome = .failure noResponseMessage ∧
      (send e h input).history = h ++ [⟨"user", .str (jsTrimStr input)⟩]) := by
  rw [send_nonempty e h input hne]
  cases hf : (fetchChatCompletion e (h ++ [⟨"user", .str (jsTrimStr input)⟩])).outcome with
  | ok v =>
    by_cases hv : v.truthy
    · refine ⟨fun w hw => ?_, fun r hr => by simp [hv] at hr, fun hempty => ?_⟩
      · simp only [hv, if_true] at hw ⊢
        simp at hw
        rw [hw]
      · have hveq : v = Json.str "" := Except.ok.inj hempty
        subst hveq
        simp [Json.truthy] at hv
    · exact ⟨fun w hw => by simp [hv] at hw, fun r _ => by simp [hv],
        fun _ => ⟨by simp [hv], by simp [hv]⟩⟩
  | error m =>
    exact ⟨fun w hw => by simp at hw, fun r _ => by simp,
      fun hempty => Except.noConfusion hempty⟩

/-- Witness for C3: a 200 proxy response whose content trims to the empty
string yields the no-response failure and leaves no assistant turn. -/
theorem c3_assistant_appended_iff_success_witness :
    (send blankContentEnv initialMessages "hello").outcome
        = .failure noResponseMessage ∧
    (send blankContentEnv initialMessages "hello").history
        = initialMessages ++ [⟨"user", .str (jsTrimStr "hello")⟩] :=
  (c3_assistant_appended_iff_success blankContentEnv initialMessages "hello"
    (by decide)).2.2 rfl

/-- C7: the history starts with exactly the system message followed by the
assistant greeting; one `send` only ever appends to the history it was
given; the wire-payload copy `conversation.map((m) => (\x7brole, content\x7d))`
is the identity on histories (full, order-preserved, no extra fields, no
truncation); and whenever a request is issued its payload is exactly the
whole accumulated history including the new user turn. -/
theorem c7_history_invariants (e : Env) (h : List Message) (input : String) :
    initialMessages
      = [⟨"system", systemMessage.content⟩, ⟨"assistant", .str initialGreeting⟩] ∧
    (∃ t, (send e h input).history = h ++ t) ∧
    payloadMessages h = h ∧
    ((send e h input).sentPayload = none ∨
      (send e h input).sentPayload = some (h ++ [⟨"user", .str (jsTrimStr input)⟩])) := by
  refine ⟨rfl, ?_, payloadMessages_id h, ?_⟩
  · by_cases he : jsTrimStr input = ""
    · exact ⟨[], by simp [send, he]⟩
    · rw [send_nonempty e h input he]
      cases hf : (fetchChatCompletion e (h ++ [⟨"user", .str (jsTrimStr input)⟩])).outcome with
      | ok v =>
        by_cases hv : v.truthy
        · exact ⟨[⟨"user", .str (jsTrimStr input)⟩, ⟨"assistant", v⟩], by simp [hv]⟩
        · exact ⟨[⟨"user", .str (jsTrimStr input)⟩], by simp [hv]⟩
      | error m =>
        exact ⟨[⟨"user", .str (jsTrimStr input)⟩], by simp⟩
  · by_cases he : jsTrimStr input = ""
    · exact .inl (by simp [send, he])
    · rw [send_nonempty e h input he]
      cases hf : (fetchChatCompletion e (h ++ [⟨"user", .str (jsTrimStr input)⟩])).outcome with
      | ok v =>
        by_cases hv : v.truthy
        · exact .inr (by simp [hv])
        · exact .inr (by simp [hv])
      | error m =>
        exact .inr (by simp)

/-- C4: on a success-status proxy body the assistant string follows the
first-match priority `assistant` → `choices[0].message.content` (trimmed) →
`reply` → raise a truthy `error` → serialize the whole body; and the sample
body `\x7b"choices":[\x7b"message":\x7b"content":" hi  "\x7d\x7d]\x7d` yields
`Success("hi")` end to end. -/
theorem c4_worker_normalization_priority (data : Json) :
    (∀ s, s ≠ "" → data.get "assistant" = some (.str s) →
      normalizeWorkerBody data = .ok (.str s)) ∧
    (truthyO (data.get "assistant") = false → choicesGuard data = true →
      ∀ s, optGet (choicesMessage data) "content" = some (.str s) →
        normalizeWorkerBody data = .ok (.str (jsTrimStr s))) ∧
    (truthyO (data.get "assistant") = false → choicesGuard data = false →
      ∀ r, r.truthy = true → data.get "reply" = some r →
        normalizeWorkerBody data = .ok r) ∧
    (truthyO (data.get "assistant") = false → choicesGuard data = false →
      truthyO (data.get "reply") = false →
      ∀ err, err.truthy = true → data.get "error" = some err →
        normalizeWorkerBody data = .error (errorFieldMessage err)) ∧
    (truthyO (data.get "assistant") = false → choicesGuard data = false →
      truthyO (data.get "reply") = false → truthyO (data.get "error") = false →
      normalizeWorkerBody data = .ok (.str data.stringify)) ∧
    (send sampleProxyEnv initialMessages "hello").outcome = .success (.str "hi") := by
  refine ⟨?_, ?_, ?_, ?_, ?_, rfl⟩
  · intro s hs ha
    simp [normalizeWorkerBody, ha, truthyO, Json.truthy, hs]
  · intro h1 h2 s h3
    simp [normalizeWorkerBody, h1, h2, h3, jsTrimVal, Except.map]
  · intro h1 h2 r hr h4
    simp [normalizeWorkerBody, h1, h2, h4, truthyO_some, hr]
  · intro h1 h2 h3 err herrt herr
    simp [normalizeWorkerBody, h1, h2, h3, herr, herrt]
  · intro h1 h2 h3 h4
    cases herr : data.get "error" with
    | none => simp [normalizeWorkerBody, h1, h2, h3, herr]
    | some err =>
      have herrt : err.truthy = false := by
        simpa [herr, truthyO] using h4
      simp [normalizeWorkerBody, h1, h2, h3, herr, herrt]

/-- Witness for C4: the sample body takes the `choices[0].message.content`
branch and trims `" hi  "` to `"hi"`. -/
theorem c4_worker_normalization_priority_witness :
    normalizeWorkerBody sampleChoicesBody = .ok (.str "hi") := by
  have h := (c4_worker_normalization_priority sampleChoicesBody).2.1 rfl rfl
    " hi  " rfl
  rw [show jsTrimStr " hi  " = "hi" from by decide] at h
  exact h

/-- C5 counterexample: the same non-success response (status 500, body
`\x7b"foo":1\x7d`, no `error` or `message` field) is handled differently by
the two paths. The claimed priority order says both should fall back to the
serialized body; the proxy path does, but the direct path produces
`"HTTP 500 - Internal Server Error"` — it never serializes the body, and
its status line is formatted `"HTTP <status> - <statusText>"`, not
`"<status> <statusText>"`. -/
theorem c5_extraction_differs_counterexample :
    workerFailMessage serverErrorResponse plainBody = "\x7b\"foo\":1\x7d" ∧
    jsDisplay (directFailValue serverErrorResponse plainBody)
      = "HTTP 500 - Internal Server Error" ∧
    directAttempt directErrorEnv = .error "HTTP 500 - Internal Server Error" ∧
    ("HTTP 500 - Internal Server Error" : String) ≠ "\x7b\"foo\":1\x7d" ∧
    ("HTTP 500 - Internal Server Error" : String) ≠ "500 Internal Server Error" := by
  refine ⟨?_, rfl, rfl, by decide, by decide⟩
  simp [workerFailMessage, plainBody, Json.stringify, Json.stringifyFields]
  decide

/-- C5 amended: on a non-success status the proxy path extracts the failure
message, in priority order, from a string `error` field, a truthy
`error.message`, a truthy `message`, else the serialized body when the
parsed body is truthy, else `"<status> <statusText>"`; the direct path uses
a different order — truthy `error.message`, then the truthy `error` value
itself, then a truthy `message`, else `"HTTP <status> - <statusText>"` —
and never falls back to the serialized body. Both extractions are what the
respective call sites raise. -/
theorem c5_extraction_priorities_amended (res : NetResponse) (data : Json) :
    (data.truthy = true →
      (∀ s, asString (data.get "error") = some s →
        workerFailMessage res data = s) ∧
      (∀ mv, asString (data.get "error") = none →
        truthyO (jsAnd (data.get "error") (optGet (data.get "error") "message")) = true →
        optGet (data.get "error") "message" = some mv →
        workerFailMessage res data = jsDisplay mv) ∧
      (∀ mv, asString (data.get "error") = none →
        truthyO (jsAnd (data.get "error") (optGet (data.get "error") "message")) = false →
        data.get "message" = some mv → mv.truthy = true →
        workerFailMessage res data = jsDisplay mv) ∧
      (asString (data.get "error") = none →
        truthyO (jsAnd (data.get "error") (optGet (data.get "error") "message")) = false →
        truthyO (data.get "message") = false →
        workerFailMessage res data = data.stringify)) ∧
    (data.truthy = false →
      workerFailMessage res data = toString res.status ++ " " ++ res.statusText) ∧
    (∀ err mv, data.truthy = true → data.get "error" = some err →
      err.truthy = true → err.get "message" = some mv → mv.truthy = true →
      jsDisplay (directFailValue res data) = jsDisplay mv) ∧
    (∀ err, data.truthy = true → data.get "error" = some err →
      err.truthy = true → truthyO (err.get "message") = false →
      jsDisplay (directFailValue res data) = jsDisplay err) ∧
    (∀ mv, data.truthy = true → truthyO (data.get "error") = false →
      data.get "message" = some mv → mv.truthy = true →
      jsDisplay (directFailValue res data) = jsDisplay mv) ∧
    (truthyO (jsAnd (jsAnd (some data) (data.get "error"))
        (jsOr (optGet (data.get "error") "message") (data.get "error"))) = false →
      truthyO (jsAnd (some data) (data.get "message")) = false →
      jsDisplay (directFailValue res data)
        = "HTTP " ++ toString res.status ++ " - " ++ res.statusText) ∧
    (∀ e t, e.proxyNet = .responds res t → t < 8000 → res.corsBlocked = false →
      res.body = .ok data → res.ok = false →
      proxyAttempt e = .error (workerFailMessage res data)) ∧
    (∀ e t, e.directNet = .responds res t → t < 12000 →
      res.body = .ok data → res.ok = false →
      directAttempt e = .error (jsDisplay (directFailValue res data))) := by
  refine ⟨fun hd => ⟨?_, ?_, ?_, ?_⟩, fun hd => ?_, ?_, ?_, ?_, ?_, ?_, ?_⟩
  · intro s hs
    simp [workerFailMessage, hd, hs]
  · intro mv hs hchain hmv
    rw [hmv] at hchain
    simp [workerFailMessage, hd, hs, hchain, hmv]
  · intro mv hs hchain hmsg hmvt
    simp [workerFailMessage, hd, hs, hchain, hmsg, truthyO_some, hmvt]
  · intro hs hchain hmsg
    simp [workerFailMessage, hd, hs, hchain, hmsg]
  · simp [workerFailMessage, hd]
  · intro err mv hd herr herrt hmsg hmvt
    simp [directFailValue, herr, jsAnd, jsOr, optGet, truthyO_some, hd, herrt,
      hmsg, hmvt]
  · intro err hd herr herrt hmsg
    simp [directFailValue, herr, jsAnd, jsOr, optGet, truthyO_some, hd, herrt, hmsg]
  · intro mv hd herr hmsg hmvt
    simp [directFailValue, herr, jsAnd, jsOr, optGet, truthyO_some, hd, hmsg, hmvt]
  · intro h1 h2
    have houter : truthyO (jsOr (jsAnd (jsAnd (some data) (data.get "error"))
        (jsOr (optGet (data.get "error") "message") (data.get "error")))
        (jsAnd (some data) (data.get "message"))) = false := by
      rw [truthyO_jsOr, h1, h2]
      rfl
    simp only [directFailValue]
    rw [jsOr_neg _ houter]
    rfl
  · intro e t hp ht hc hb hok
    have hlt : ¬ 8000 ≤ t := by omega
    simp [proxyAttempt, timeoutFetch, hp, hlt, hc, hb, hok]
  · intro e t hp ht hb hok
    have hlt : ¬ 12000 ≤ t := by omega
    simp [directAttempt, timeoutFetch, hp, hlt, hb, hok]

/-- Witness for the amended C5 at the 500 response with body
`\x7b"foo":1\x7d`: the proxy path serializes the body. -/
theorem c5_extraction_priorities_amended_witness :
    workerFailMessage serverErrorResponse plainBody = Json.stringify plainBody :=
  ((c5_extraction_priorities_amended serverErrorResponse plainBody).1 rfl).2.2.2
    rfl rfl rfl

/-- C6: whenever the proxy attempt throws — whatever the error — the client
falls through to the direct call exactly when a credential is available
(already defined or loadable), and otherwise throws the fixed message that
mentions both the unreachable proxy and the missing key; the decision reads
only the credential availability, never the proxy error itself, so two
environments whose proxies fail with different errors behave identically. -/
theorem c6_fallback_gated_on_credential (e : Env) (conversation : List Message)
    (m : String) (hfail : proxyAttempt e = .error m) :
    (ensureApiKeyLoaded e = true →
      fetchChatCompletion e conversation
        = ⟨directAttempt e, payloadMessages conversation, true⟩) ∧
    (ensureApiKeyLoaded e = false →
      fetchChatCompletion e conversation
        = ⟨.error proxyUnreachableMessage, payloadMessages conversation, false⟩) ∧
    (∃ mid tail, proxyUnreachableMessage
        = "Unable to contact the proxy service" ++ mid ++ "OPENAI_API_KEY" ++ tail) ∧
    (∀ (e2 : Env) (m2 : String), proxyAttempt e2 = .error m2 →
      ensureApiKeyLoaded e2 = ensureApiKeyLoaded e → e2.directNet = e.directNet →
      fetchChatCompletion e2 conversation = fetchChatCompletion e conversation) := by
  refine ⟨?_, ?_, ?_, ?_⟩
  · intro hk
    simp only [fetchChatCompletion]
    rw [if_pos workerUrl_configured, hfail]
    simp [hk]
  · intro hk
    simp only [fetchChatCompletion]
    rw [if_pos workerUrl_configured, hfail]
    simp [hk]
  · refine ⟨" (network/CORS/timeout). To fix: 1) Ensure your Cloudflare Worker URL is correct and the worker sets Access-Control-Allow-Origin (e.g., \x27*\x27). 2) Open the browser Network tab to inspect the worker request and CORS preflight. 3) For local development you can add a secrets.js file defining ",
      " or fix the worker. (See console for the worker error.)", ?_⟩
    decide
  · intro e2 m2 hfail2 hkeq hdeq
    have hde : directAttempt e2 = directAttempt e := by
      simp [directAttempt, hdeq]
    simp only [fetchChatCompletion]
    rw [if_pos workerUrl_configured, if_pos workerUrl_configured, hfail, hfail2]
    simp [hkeq, hde]

/-- Witness for C6: with the network down everywhere and no key, the call
throws the fixed proxy-unreachable message and never tries the fallback. -/
theorem c6_fallback_gated_on_credential_witness :
    fetchChatCompletion offlineEnv initialMessages
      = ⟨.error proxyUnreachableMessage, payloadMessages initialMessages, false⟩ :=
  (c6_fallback_gated_on_credential offlineEnv initialMessages "Failed to fetch"
    rfl).2.1 rfl

/-- C8: on the direct path a success-status body normalizes to exactly
`choices[0].message.content` trimmed; when the chain down to `content` is
not available the result is the empty string; that extraction is what the
direct call returns on a success status; and an empty assistant string is
then reported as the generic no-response failure, not a success. -/
theorem c8_direct_success_normalization (data : Json) :
    (∀ s, directContentChain data = some (.str s) → s ≠ "" →
      directAssistantText data = .ok (jsTrimStr s)) ∧
    (truthyO (directContentChain data) = false →
      directAssistantText data = .ok "") ∧
    (∀ (e : Env) (res : NetResponse) (t : Nat),
      e.directNet = .responds res t → t < 12000 → res.body = .ok data →
      res.ok = true →
      directAttempt e = (directAssistantText data).map Json.str) ∧
    (∀ (e : Env) (h : List Message) (input : String), jsTrimStr input ≠ "" →
      (fetchChatCompletion e (h ++ [⟨"user", .str (jsTrimStr input)⟩])).outcome
        = .ok (.str "") →
      (send e h input).outcome = .failure noResponseMessage) := by
  refine ⟨?_, ?_, ?_, ?_⟩
  · intro s hchain hs
    simp [directAssistantText, hchain, truthyO_some, Json.truthy, hs, jsTrimVal]
  · intro hch
    simp [directAssistantText, hch]
  · intro e res t hd htd hb hok
    have hnl : ¬ 12000 ≤ t := by omega
    simp [directAttempt, timeoutFetch, hd, hnl, hb, hok]
  · intro e h input hne hfet
    rw [send_nonempty e h input hne, hfet]
    simp [Json.truthy]

/-- Witness for C8: a direct body whose content is `"ok "` trims to `"ok"`. -/
theorem c8_direct_success_normalization_witness :
    directAssistantText directOkBody = .ok "ok" := by
  have h := (c8_direct_success_normalization directOkBody).1 "ok " rfl (by decide)
  rw [show jsTrimStr "ok " = "ok" from by decide] at h
  exact h

/-- C9: a proxy fetch that has not settled by the 8000 ms budget is aborted
and the attempt throws the abort error; the whole call then behaves exactly
as if the proxy had failed with a network error, so the same fallback
evaluation runs; and the fallback's own `timeoutFetch` budget is 12000 ms —
a response inside that budget is delivered, one beyond it is aborted. -/
theorem c9_timeout_is_network_failure (e : Env) (conversation : List Message)
    (ht : 8000 ≤ e.proxyNet.time) :
    proxyAttempt e = .error abortErrorMessage ∧
    (∀ msg t2, t2 < 8000 →
      fetchChatCompletion { e with proxyNet := .fails msg t2 } conversation
        = fetchChatCompletion e conversation) ∧
    (∀ (res : NetResponse) (td : Nat), td < 12000 →
      timeoutFetch 12000 (.responds res td) = .ok res) ∧
    (∀ b, 12000 ≤ FetchBehavior.time b →
      timeoutFetch 12000 b = .error abortErrorMessage) := by
  have habort : proxyAttempt e = .error abortErrorMessage := by
    cases hb : e.proxyNet with
    | fails msg t =>
      have h8 : 8000 ≤ t := by
        rw [hb] at ht
        simpa [FetchBehavior.time] using ht
      simp [proxyAttempt, timeoutFetch, hb, h8]
    | responds res t =>
      have h8 : 8000 ≤ t := by
        rw [hb] at ht
        simpa [FetchBehavior.time] using ht
      simp [proxyAttempt, timeoutFetch, hb, h8]
  refine ⟨habort, ?_, ?_, ?_⟩
  · intro msg t2 ht2
    have h2 : ¬ 8000 ≤ t2 := by omega
    have hl : proxyAttempt { e with proxyNet := .fails msg t2 } = .error msg := by
      simp [proxyAttempt, timeoutFetch, h2]
    have hde : directAttempt { e with proxyNet := .fails msg t2 } = directAttempt e := by
      simp [directAttempt]
    simp only [fetchChatCompletion]
    rw [if_pos workerUrl_configured, if_pos workerUrl_configured, hl, habort]
    simp [ensureApiKeyLoaded, hde]
  · intro res td htd
    have hnl : ¬ 12000 ≤ td := by omega
    simp [timeoutFetch, hnl]
  · intro b hb12
    cases b with
    | fails msg t =>
      have : 12000 ≤ t := by simpa [FetchBehavior.time] using hb12
      simp [timeoutFetch, this]
    | responds res t =>
      have : 12000 ≤ t := by simpa [FetchBehavior.time] using hb12
      simp [timeoutFetch, this]

/-- Witness for C9: a proxy response arriving after 9000 ms is aborted. -/
theorem c9_timeout_is_network_failure_witness :
    proxyAttempt slowProxyEnv = .error abortErrorMessage :=
  (c9_timeout_is_network_failure slowProxyEnv initialMessages (by decide)).1

/-- C10: a success-status proxy body whose `choices[0].message` exists but
has no `content` never reaches the serialized-body passthrough: the access
`content.trim()` throws inside the `try`, the attempt returns no value at
all, and `fetchChatCompletion` runs the same credential-gated fallback
evaluation as for any other proxy failure. -/
theorem c10_missing_content_throws (data : Json)
    (hassist : truthyO (data.get "assistant") = false)
    (hguard : choicesGuard data = true)
    (hcontent : optGet (choicesMessage data) "content" = none) :
    normalizeWorkerBody data
      = .error "Cannot read properties of undefined (reading \x27trim\x27)" ∧
    (∀ v, normalizeWorkerBody data ≠ .ok v) ∧
    (∀ (e : Env) (res : NetResponse) (t : Nat) (conversation : List Message),
      e.proxyNet = .responds res t → t < 8000 → res.corsBlocked = false →
      res.body = .ok data → res.ok = true →
      fetchChatCompletion e conversation =
        if ensureApiKeyLoaded e then
          ⟨directAttempt e, payloadMessages conversation, true⟩
        else
          ⟨.error proxyUnreachableMessage, payloadMessages conversation, false⟩) := by
  have hnorm : normalizeWorkerBody data
      = .error "Cannot read properties of undefined (reading \x27trim\x27)" := by
    simp [normalizeWorkerBody, hassist, hguard, hcontent, jsTrimVal, Except.map]
  refine ⟨hnorm, fun v hv => ?_, ?_⟩
  · rw [hnorm] at hv
    exact Except.noConfusion hv
  · intro e res t conversation hp htt hc hb hok
    have hnl : ¬ 8000 ≤ t := by omega
    have hpa : proxyAttempt e
        = .error "Cannot read properties of undefined (reading \x27trim\x27)" := by
      simp [proxyAttempt, timeoutFetch, hp, hnl, hc, hb, hok, hnorm]
    simp only [fetchChatCompletion]
    rw [if_pos workerUrl_configured, hpa]

/-- Witness for C10 at a body whose `message` has a `role` but no
`content`. -/
theorem c10_missing_content_throws_witness :
    normalizeWorkerBody noContentBody
      = .error "Cannot read properties of undefined (reading \x27trim\x27)" :=
  (c10_missing_content_throws noContentBody rfl rfl rfl).1
